import Mathlib

/-!
Verification of the FIDC ETL pipeline (Etl_FIDIC_SAFARI).

Shallow embedding of the core extraction / parsing / indicator / diff logic:
  * `converter_valor`, `buscar_valor_xml` (src/src/extractors/xml_parser.py)
  * the indicator block of `FIDCXMLParser.parse` (same file, lines 222-258)
  * `clean_cnpj`, `convert_numeric_columns` (src/src/transformers/data_cleaner.py)
  * `DiffGenerator.generate_diff_report` (src/src/validators/diff_generator.py)
  * the retry session of `B3ApiClient` (src/src/extractors/api_client.py)
  * `FIDCETLService.process_single_cnpj` / `process_batch`
    (src/src/services/etl_service.py)

Python strings are embedded as `List Char`, Python floats as `ℚ` (the values
arising in the claims are exact decimals), `None`/NaN as `Option`.
-/

namespace FidcEtl

/-- A Python string, embedded as a list of characters. -/
abbrev Str := List Char

/-- Numeric value of a decimal digit character. -/
def digitVal (c : Char) : ℕ := c.toNat - 48

/-- Value of a digit string read in base 10 (the way `int`/`float` read the
integer part: left fold). -/
def digitsVal (l : Str) : ℕ := l.foldl (fun a c => a * 10 + digitVal c) 0

/-- All characters are ASCII decimal digits. -/
def allDigits (l : Str) : Bool := l.all Char.isDigit

/-- ASCII whitespace as stripped by Python `str.strip()` (space, tab,
newline, carriage return, vertical tab, form feed). -/
def isPySpace (c : Char) : Bool :=
  c == ' ' || c == '\t' || c == '\n' || c == '\r' || c == '\x0b' || c == '\x0c'

/-- Python `str.strip()` with no argument: remove leading and trailing
whitespace. -/
def strip (l : Str) : Str :=
  ((l.dropWhile isPySpace).reverse.dropWhile isPySpace).reverse

/-- Split a string at the first character satisfying `p`: returns the part
before it and, when found, the part after it. -/
def splitFirst (p : Char → Bool) : Str → Str × Option Str
  | [] => ([], none)
  | c :: rest =>
    if p c then ([], some rest)
    else
      let r := splitFirst p rest
      (c :: r.1, r.2)

/-- Consume an optional leading sign; returns (isNegative, rest). -/
def parseSign : Str → Bool × Str
  | [] => (false, [])
  | c :: rest =>
    if c = '-' then (true, rest)
    else if c = '+' then (false, rest)
    else (false, c :: rest)

/-- Parse a (signed) exponent part of a float literal: digits required. -/
def parseExp (l : Str) : Option ℤ :=
  let s := parseSign l
  if s.2 ≠ [] ∧ allDigits s.2 = true then
    some (if s.1 then -(digitsVal s.2 : ℤ) else (digitsVal s.2 : ℤ))
  else none

/-- Parse the mantissa `digits[.digits]` of a float literal (at least one
digit overall; a second dot lands in the fractional part and is rejected). -/
def parseMantissa (l : Str) : Option ℚ :=
  let s := splitFirst (fun c => c == '.') l
  let fp := s.2.getD []
  if allDigits s.1 = true ∧ allDigits fp = true ∧ s.1 ++ fp ≠ [] then
    some ((digitsVal (s.1 ++ fp) : ℚ) / (10 : ℚ) ^ fp.length)
  else none

/-- Model of Python `float(s)` on finite decimal / scientific literals:
optional surrounding whitespace, optional sign, `digits[.digits]`,
optional `e`/`E` exponent.  `none` models `ValueError`.
(The `inf`/`nan` literals and digit-group underscores are outside the model;
no claim exercises them, and infinities are not values of `ℚ`.) -/
def pyFloat (s : Str) : Option ℚ :=
  let t := strip s
  let sg := parseSign t
  let me := splitFirst (fun c => c == 'e' || c == 'E') sg.2
  match parseMantissa me.1, me.2 with
  | some m, none => some (if sg.1 then -m else m)
  | some m, some ex =>
    match parseExp ex with
    | some e => some ((if sg.1 then -m else m) * (10 : ℚ) ^ e)
    | none => none
  | none, _ => none

/-- `converter_valor` (xml_parser.py lines 25-36): Brazilian-format text to
float.  The input is `Option Str` because the function is also reached with
`None` (falsy, like the empty string).  Removes every `'.'`, then replaces
`','` by `'.'`, then parses as float; any failure yields `0.0`.  The
function is total: the Python `except` clause can only return `0.0`. -/
def converter_valor (texto : Option Str) : ℚ :=
  match texto with
  | none => 0
  | some s =>
    if s = [] ∨ strip s = [] then 0
    else
      let texto_limpo := (s.filter (fun c => c != '.')).map
        (fun c => if c = ',' then '.' else c)
      match pyFloat texto_limpo with
      | some q => q
      | none => 0

/-- The Brazilian thousands-grouped decimal string
`g0 . g1 . g2 ... , d1 d2` (groups joined by `'.'`, then `','` and two
decimal digits). -/
def mkBrazil (g0 : Str) (gs : List Str) (d1 d2 : Char) : Str :=
  g0 ++ (gs.map (fun g => '.' :: g)).flatten ++ [',', d1, d2]

example : converter_valor (some ("abc".toList)) = 0 := by decide

example : converter_valor none = 0 := by decide

/-! Character-level facts used to evaluate the string pipeline. -/

lemma isPySpace_eq_false_of_isDigit {c : Char} (h : c.isDigit = true) :
    isPySpace c = false := by
  simp only [isPySpace, Bool.or_eq_false_iff, beq_eq_false_iff_ne, ne_eq]
  refine ⟨⟨⟨⟨⟨?_, ?_⟩, ?_⟩, ?_⟩, ?_⟩, ?_⟩ <;>
    (intro hc; subst hc; exact absurd h (by decide))

lemma ne_of_isDigit {c : Char} (h : c.isDigit = true) {d : Char}
    (hd : d.isDigit = false) : c ≠ d := by
  intro hc; subst hc; rw [h] at hd; exact absurd hd (by decide)

lemma dropWhile_eq_self_of_head {p : Char → Bool} {l : Str} {c : Char}
    (hh : l.head? = some c) (hc : p c = false) : l.dropWhile p = l := by
  cases l with
  | nil => simp at hh
  | cons a t =>
    simp only [List.head?_cons, Option.some.injEq] at hh
    subst hh
    simp [List.dropWhile_cons, hc]

lemma strip_eq_self {l : Str} {c₀ c₁ : Char}
    (h₀ : l.head? = some c₀) (hw₀ : isPySpace c₀ = false)
    (h₁ : l.getLast? = some c₁) (hw₁ : isPySpace c₁ = false) :
    strip l = l := by
  unfold strip
  rw [dropWhile_eq_self_of_head h₀ hw₀,
    dropWhile_eq_self_of_head (by rw [List.head?_reverse]; exact h₁) hw₁,
    List.reverse_reverse]

lemma splitFirst_of_forall_neg {p : Char → Bool} {l : Str}
    (h : ∀ c ∈ l, p c = false) : splitFirst p l = (l, none) := by
  induction l with
  | nil => rfl
  | cons a t ih =>
    have ha : p a = false := h a (List.mem_cons_self a t)
    simp only [splitFirst, ha, Bool.false_eq_true, if_false]
    rw [ih (fun c hc => h c (List.mem_cons_of_mem a hc))]

lemma splitFirst_append {p : Char → Bool} {l₁ : Str} {c : Char} (l₂ : Str)
    (h : ∀ x ∈ l₁, p x = false) (hc : p c = true) :
    splitFirst p (l₁ ++ c :: l₂) = (l₁, some l₂) := by
  induction l₁ with
  | nil => simp [splitFirst, hc]
  | cons a t ih =>
    have ha : p a = false := h a (List.mem_cons_self a t)
    have ih' := ih (fun x hx => h x (List.mem_cons_of_mem a hx))
    simp only [List.cons_append, splitFirst, ha, Bool.false_eq_true, if_false,
      List.append_eq, ih']

lemma parseSign_of_digit {l : Str} {c : Char} (hh : l.head? = some c)
    (hc : c.isDigit = true) : parseSign l = (false, l) := by
  have h1 : c ≠ '-' := ne_of_isDigit hc (by decide)
  have h2 : c ≠ '+' := ne_of_isDigit hc (by decide)
  cases l with
  | nil => simp at hh
  | cons a t =>
    simp only [List.head?_cons, Option.some.injEq] at hh
    subst hh
    simp [parseSign, h1, h2]

lemma filter_ne_dot_of_digits {l : Str} (h : allDigits l = true) :
    l.filter (fun c => c != '.') = l := by
  rw [List.filter_eq_self]
  intro a ha
  have : a.isDigit = true := by
    simpa using (List.all_eq_true.mp h a ha)
  simpa using ne_of_isDigit this (by decide)

lemma map_comma_of_digits {l : Str} (h : allDigits l = true) :
    l.map (fun c => if c = ',' then '.' else c) = l := by
  have : ∀ a ∈ l, (fun c => if c = ',' then '.' else c) a = id a := by
    intro a ha
    have hd : a.isDigit = true := by
      simpa using (List.all_eq_true.mp h a ha)
    have : a ≠ ',' := ne_of_isDigit hd (by decide)
    simp [this]
  rw [List.map_congr_left this, List.map_id]

lemma mem_digit_of_allDigits {l : Str} (h : allDigits l = true) {c : Char}
    (hc : c ∈ l) : c.isDigit = true := by
  simpa using List.all_eq_true.mp h c hc

lemma beq_eE_false_of_digit {c : Char} (h : c.isDigit = true) :
    (c == 'e' || c == 'E') = false := by
  have he : c ≠ 'e' := ne_of_isDigit h (by decide)
  have hE : c ≠ 'E' := ne_of_isDigit h (by decide)
  simp [he, hE]

lemma allDigits_flatten {gs : List Str} (h : ∀ g ∈ gs, allDigits g = true) :
    allDigits gs.flatten = true := by
  induction gs with
  | nil => rfl
  | cons g rest ih =>
    have hg := h g (List.mem_cons_self g rest)
    have hr := ih (fun x hx => h x (List.mem_cons_of_mem g hx))
    simp only [List.flatten_cons, allDigits, List.all_append]
    simp only [allDigits] at hg hr
    rw [hg, hr]
    rfl

lemma filter_dot_flatten {gs : List Str} (h : ∀ g ∈ gs, allDigits g = true) :
    ((gs.map (fun g => '.' :: g)).flatten).filter (fun c => c != '.')
      = gs.flatten := by
  induction gs with
  | nil => rfl
  | cons g rest ih =>
    have hg := h g (List.mem_cons_self g rest)
    have hr := ih (fun x hx => h x (List.mem_cons_of_mem g hx))
    simp only [List.map_cons, List.flatten_cons, List.filter_append,
      List.filter_cons]
    rw [filter_ne_dot_of_digits hg, hr]
    norm_num

/-- `pyFloat` on a cleaned Brazilian string: integer digits, a dot, and two
decimal digit characters. -/
lemma pyFloat_digits_dot2 {ip : Str} {d1 d2 : Char}
    (hip : allDigits ip = true) (hne : ip ≠ [])
    (h1 : d1.isDigit = true) (h2 : d2.isDigit = true) :
    pyFloat (ip ++ ['.', d1, d2])
      = some ((digitsVal (ip ++ [d1, d2]) : ℚ) / 100) := by
  obtain ⟨c0, t0, rfl⟩ : ∃ c0 t0, ip = c0 :: t0 := by
    cases ip with
    | nil => exact absurd rfl hne
    | cons a t => exact ⟨a, t, rfl⟩
  have hc0 : c0.isDigit = true :=
    mem_digit_of_allDigits hip (List.mem_cons_self c0 t0)
  have hhead : (c0 :: (t0 ++ ['.', d1, d2])).head? = some c0 := rfl
  have hlast : (c0 :: (t0 ++ ['.', d1, d2])).getLast? = some d2 := by
    have hshape : c0 :: (t0 ++ ['.', d1, d2])
        = (c0 :: (t0 ++ ['.', d1])) ++ [d2] := by simp
    rw [hshape, List.getLast?_concat]
  have hstrip : strip (c0 :: (t0 ++ ['.', d1, d2]))
      = c0 :: (t0 ++ ['.', d1, d2]) :=
    strip_eq_self hhead (isPySpace_eq_false_of_isDigit hc0)
      hlast (isPySpace_eq_false_of_isDigit h2)
  have hsign : parseSign (c0 :: (t0 ++ ['.', d1, d2]))
      = (false, c0 :: (t0 ++ ['.', d1, d2])) :=
    parseSign_of_digit hhead hc0
  have hmem : ∀ c ∈ c0 :: (t0 ++ ['.', d1, d2]), c.isDigit = true ∨ c = '.' := by
    intro c hc
    rcases List.mem_cons.mp hc with h | hc
    · subst h; exact Or.inl hc0
    · rcases List.mem_append.mp hc with hc | hc
      · exact Or.inl (mem_digit_of_allDigits hip (List.mem_cons_of_mem c0 hc))
      · simp only [List.mem_cons, List.not_mem_nil, or_false] at hc
        rcases hc with h | h | h
        · exact Or.inr h
        · subst h; exact Or.inl h1
        · subst h; exact Or.inl h2
  have hnoexp : splitFirst (fun c => c == 'e' || c == 'E')
      (c0 :: (t0 ++ ['.', d1, d2]))
      = (c0 :: (t0 ++ ['.', d1, d2]), none) := by
    apply splitFirst_of_forall_neg
    intro c hc
    rcases hmem c hc with hd | h
    · exact beq_eE_false_of_digit hd
    · subst h; decide
  have hmant : parseMantissa (c0 :: (t0 ++ ['.', d1, d2]))
      = some ((digitsVal (c0 :: (t0 ++ [d1, d2])) : ℚ) / 100) := by
    have hsplit : splitFirst (fun c => c == '.') ((c0 :: t0) ++ '.' :: [d1, d2])
        = (c0 :: t0, some [d1, d2]) := by
      apply splitFirst_append
      · intro x hx
        have hd := mem_digit_of_allDigits hip hx
        simpa using ne_of_isDigit hd (by decide)
      · decide
    have hsplit' : splitFirst (fun c => c == '.') (c0 :: (t0 ++ ['.', d1, d2]))
        = (c0 :: t0, some [d1, d2]) := by
      rw [show (c0 :: (t0 ++ ['.', d1, d2]) : Str)
        = (c0 :: t0) ++ '.' :: [d1, d2] from by simp, hsplit]
    have hfp : allDigits [d1, d2] = true := by
      simp [allDigits, h1, h2]
    simp only [parseMantissa, hsplit', Option.getD_some]
    rw [if_pos ⟨hip, hfp, by simp⟩]
    norm_num
  simp [pyFloat, hstrip, hsign, hnoexp, hmant]

lemma allDigits_append {a b : Str} :
    allDigits (a ++ b) = (allDigits a && allDigits b) := List.all_append

/-- C1: for every input string in Brazilian numeric format
`D{1,3}(.D{3})*,DD`, `converter_valor` removes every `'.'`, replaces `','`
with `'.'`, and parses the result as a float, reconstructing the expected
value (the concatenated digits divided by 100); for the empty string, `None`,
or any input whose cleaned form does not parse as a float it returns `0.0`;
the function is total (never raises). -/
theorem converter_valor_brazilian_format (g0 : Str) (gs : List Str)
    (d1 d2 : Char)
    (hlen : 1 ≤ g0.length) (hlen3 : g0.length ≤ 3)
    (hg0 : allDigits g0 = true)
    (hgs : ∀ g ∈ gs, g.length = 3 ∧ allDigits g = true)
    (h1 : d1.isDigit = true) (h2 : d2.isDigit = true) :
    converter_valor (some (mkBrazil g0 gs d1 d2))
        = (digitsVal (g0 ++ gs.flatten ++ [d1, d2]) : ℚ) / 100
      ∧ converter_valor none = 0
      ∧ converter_valor (some []) = 0
      ∧ ∀ s : Str,
          pyFloat ((s.filter (fun c => c != '.')).map
            (fun c => if c = ',' then '.' else c)) = none →
          converter_valor (some s) = 0 := by
  refine ⟨?_, rfl, rfl, ?_⟩
  · have hgd : ∀ g ∈ gs, allDigits g = true := fun g hg => (hgs g hg).2
    obtain ⟨c0, t0, rfl⟩ : ∃ c0 t0, g0 = c0 :: t0 := by
      cases g0 with
      | nil => simp at hlen
      | cons a t => exact ⟨a, t, rfl⟩
    have hc0 : c0.isDigit = true :=
      mem_digit_of_allDigits hg0 (List.mem_cons_self c0 t0)
    have hm : mkBrazil (c0 :: t0) gs d1 d2
        = c0 :: (t0 ++ ((gs.map (fun g => '.' :: g)).flatten ++ [',', d1, d2])) := by
      simp [mkBrazil]
    have hhead : (mkBrazil (c0 :: t0) gs d1 d2).head? = some c0 := by
      rw [hm]; rfl
    have hlast : (mkBrazil (c0 :: t0) gs d1 d2).getLast? = some d2 := by
      have hshape : mkBrazil (c0 :: t0) gs d1 d2
          = (c0 :: (t0 ++ ((gs.map (fun g => '.' :: g)).flatten ++ [',', d1])))
            ++ [d2] := by
        simp [mkBrazil]
      rw [hshape, List.getLast?_concat]
    have hne : mkBrazil (c0 :: t0) gs d1 d2 ≠ [] := by
      rw [hm]; exact List.cons_ne_nil _ _
    have hstrip : strip (mkBrazil (c0 :: t0) gs d1 d2)
        = mkBrazil (c0 :: t0) gs d1 d2 :=
      strip_eq_self hhead (isPySpace_eq_false_of_isDigit hc0)
        hlast (isPySpace_eq_false_of_isDigit h2)
    have hf3 : ([',', d1, d2] : Str).filter (fun c => c != '.')
        = [',', d1, d2] := by
      have hd1 : (d1 != '.') = true := by
        simpa using ne_of_isDigit h1 (by decide)
      have hd2 : (d2 != '.') = true := by
        simpa using ne_of_isDigit h2 (by decide)
      simp [List.filter, hd1, hd2]
    have hm3 : ([',', d1, d2] : Str).map (fun c => if c = ',' then '.' else c)
        = ['.', d1, d2] := by
      have hd1 : d1 ≠ ',' := ne_of_isDigit h1 (by decide)
      have hd2 : d2 ≠ ',' := ne_of_isDigit h2 (by decide)
      simp [hd1, hd2]
    have hclean : ((mkBrazil (c0 :: t0) gs d1 d2).filter (fun c => c != '.')).map
        (fun c => if c = ',' then '.' else c)
        = ((c0 :: t0) ++ gs.flatten) ++ ['.', d1, d2] := by
      unfold mkBrazil
      rw [List.filter_append, List.filter_append,
        filter_ne_dot_of_digits hg0, filter_dot_flatten hgd, hf3,
        List.map_append, List.map_append, map_comma_of_digits hg0,
        map_comma_of_digits (allDigits_flatten hgd), hm3]
    have hipd : allDigits ((c0 :: t0) ++ gs.flatten) = true := by
      rw [allDigits_append, hg0, allDigits_flatten hgd]
      rfl
    have hipne : ((c0 :: t0) ++ gs.flatten : Str) ≠ [] := by simp
    have hpf := pyFloat_digits_dot2 hipd hipne h1 h2
    simp only [converter_valor]
    rw [if_neg (not_or.mpr ⟨hne, by rw [hstrip]; exact hne⟩), hclean, hpf,
      List.append_assoc]
  · intro s hs
    simp only [converter_valor]
    by_cases h : s = [] ∨ strip s = []
    · rw [if_pos h]
    · rw [if_neg h, hs]

/-- Witness for C1 at the spec's own example input. -/
theorem converter_valor_brazilian_format_witness :
    converter_valor (some ("1.234.567,89".toList)) = 1234567.89 := by
  have h := converter_valor_brazilian_format ("1".toList)
    ["234".toList, "567".toList] '8' '9'
    (by decide) (by decide) (by decide) (by decide) (by decide) (by decide)
  have hm : mkBrazil ("1".toList) ["234".toList, "567".toList] '8' '9'
      = "1.234.567,89".toList := by decide
  have hd : digitsVal ("1".toList
      ++ (["234".toList, "567".toList] : List Str).flatten ++ ['8', '9'])
      = 123456789 := by decide
  rw [← hm, h.1, hd]
  norm_num

/-! ## XML field lookup: `buscar_valor_xml` (xml_parser.py lines 39-71) -/

/-- The first argument is a prefix of the second (character-wise). -/
def isPrefixOfB : Str → Str → Bool
  | [], _ => true
  | _ :: _, [] => false
  | a :: as, b :: bs => a == b && isPrefixOfB as bs

/-- Python `needle in hay`: `needle` occurs as a contiguous substring. -/
def containsSub (needle : Str) : Str → Bool
  | [] => isPrefixOfB needle []
  | c :: rest => isPrefixOfB needle (c :: rest) || containsSub needle rest

/-- The fixed set of markers forcing a string-typed result
(`'DT_', 'NR_', 'CD_', 'FDO_', 'CLASS_', 'COTST_', 'TP_'`). -/
def textualMarkers : List Str :=
  ["DT_".toList, "NR_".toList, "CD_".toList, "FDO_".toList,
   "CLASS_".toList, "COTST_".toList, "TP_".toList]

/-- `any(x in caminho for x in [...])` over the textual markers. -/
def isTextualPath (caminho : Str) : Bool :=
  textualMarkers.any (fun m => containsSub m caminho)

/-- Numeric prefixes `'VL_', 'QT_', 'PR_', 'TX_'`. -/
def numericPrefixes : List Str :=
  ["VL_".toList, "QT_".toList, "PR_".toList, "TX_".toList]

/-- `'/' in caminho or caminho.startswith((VL_, QT_, PR_, TX_))`: the
condition under which an absent element defaults to the numeric `0.0`. -/
def isNumericDefaultPath (caminho : Str) : Bool :=
  caminho.contains '/' || numericPrefixes.any (fun p => isPrefixOfB p caminho)

/-- The dynamically-typed value returned by `buscar_valor_xml`
(Python returns either `str` or `float`). -/
inductive XmlValue where
  | vstr (s : Str)
  | vnum (q : ℚ)
  deriving DecidableEq

/-- The not-found / empty-text fallback of `buscar_valor_xml`
(lines 62-71): `""` for textual paths, `0.0` for slash/numeric-prefixed
paths, and `""` for everything else. -/
def buscar_default (caminho : Str) : XmlValue :=
  if isTextualPath caminho = true then .vstr []
  else if isNumericDefaultPath caminho = true then .vnum 0
  else .vstr []

/-- `buscar_valor_xml` (lines 39-71).  `find` models
`root.find('.//' + caminho)`: `none` is an absent element, `some none` an
element whose `.text` is `None`, `some (some t)` an element with text `t`
(the empty text is falsy, like `None`).  The Python `try/except` around
`converter_valor` never fires because `converter_valor` is total. -/
def buscar_valor_xml (find : Str → Option (Option Str)) (caminho : Str) :
    XmlValue :=
  match find caminho with
  | some (some t) =>
    if t = [] then buscar_default caminho
    else
      let texto := strip t
      if isTextualPath caminho = true then .vstr texto
      else .vnum (converter_valor (some t))
  | some none => buscar_default caminho
  | none => buscar_default caminho

/-- Counterexample for C5: a non-textual path without `'/'` and without a
numeric prefix (`"FOO"`) defaults to the string `""` on absence, not to the
numeric `0.0` the claim requires for every non-textual path. -/
theorem buscar_valor_xml_counterexample :
    isTextualPath ("FOO".toList) = false
    ∧ buscar_valor_xml (fun _ => none) ("FOO".toList) = XmlValue.vstr []
    ∧ XmlValue.vstr [] ≠ XmlValue.vnum 0 := by
  refine ⟨by decide, rfl, by decide⟩

/-- C5 amended: textual paths (prefix-matched against the fixed marker set)
always yield the trimmed element text, defaulting to `""`; non-textual paths
yield the Brazilian-locale conversion of the element's text when present and
non-empty, and on absence or empty text (absent element, `None` text, or
empty text) default to `0.0` only when the path contains `'/'` or starts
with `VL_`/`QT_`/`PR_`/`TX_` — any other non-textual path defaults to the
string `""`. -/
theorem buscar_valor_xml_typing (find : Str → Option (Option Str))
    (caminho : Str) :
    (isTextualPath caminho = true →
      (∀ t, find caminho = some (some t) → t ≠ [] →
          buscar_valor_xml find caminho = .vstr (strip t))
      ∧ (find caminho = none → buscar_valor_xml find caminho = .vstr [])
      ∧ (find caminho = some none → buscar_valor_xml find caminho = .vstr [])
      ∧ (find caminho = some (some []) →
          buscar_valor_xml find caminho = .vstr []))
    ∧ (isTextualPath caminho = false →
      (∀ t, find caminho = some (some t) → t ≠ [] →
          buscar_valor_xml find caminho = .vnum (converter_valor (some t)))
      ∧ (find caminho = none → isNumericDefaultPath caminho = true →
          buscar_valor_xml find caminho = .vnum 0)
      ∧ (find caminho = none → isNumericDefaultPath caminho = false →
          buscar_valor_xml find caminho = .vstr [])
      ∧ (find caminho = some none → isNumericDefaultPath caminho = true →
          buscar_valor_xml find caminho = .vnum 0)
      ∧ (find caminho = some none → isNumericDefaultPath caminho = false →
          buscar_valor_xml find caminho = .vstr [])
      ∧ (find caminho = some (some []) → isNumericDefaultPath caminho = true →
          buscar_valor_xml find caminho = .vnum 0)
      ∧ (find caminho = some (some []) →
          isNumericDefaultPath caminho = false →
          buscar_valor_xml find caminho = .vstr [])) := by
  constructor
  · intro htex
    refine ⟨?_, ?_, ?_, ?_⟩
    · intro t hf hne
      simp [buscar_valor_xml, hf, hne, htex]
    · intro hf
      simp [buscar_valor_xml, hf, buscar_default, htex]
    · intro hf
      simp [buscar_valor_xml, hf, buscar_default, htex]
    · intro hf
      simp [buscar_valor_xml, hf, buscar_default, htex]
  · intro htex
    refine ⟨?_, ?_, ?_, ?_, ?_, ?_, ?_⟩
    · intro t hf hne
      simp [buscar_valor_xml, hf, hne, htex]
    · intro hf hnum
      simp [buscar_valor_xml, hf, buscar_default, htex, hnum]
    · intro hf hnum
      simp [buscar_valor_xml, hf, buscar_default, htex, hnum]
    · intro hf hnum
      simp [buscar_valor_xml, hf, buscar_default, htex, hnum]
    · intro hf hnum
      simp [buscar_valor_xml, hf, buscar_default, htex, hnum]
    · intro hf hnum
      simp [buscar_valor_xml, hf, buscar_default, htex, hnum]
    · intro hf hnum
      simp [buscar_valor_xml, hf, buscar_default, htex, hnum]

/-- Witness for C5 at concrete inputs: a textual path with present text, a
numeric path with absent element, and a numeric path with empty text. -/
theorem buscar_valor_xml_typing_witness :
    buscar_valor_xml
      (fun p => if p = "DT_COMPT".toList then some (some (" 01/2024 ".toList))
        else none) ("DT_COMPT".toList) = XmlValue.vstr ("01/2024".toList)
    ∧ buscar_valor_xml (fun _ => none) ("VL_CARTEIRA".toList)
        = XmlValue.vnum 0
    ∧ buscar_valor_xml (fun _ => some (some [])) ("VL_CARTEIRA".toList)
        = XmlValue.vnum 0 := by
  refine ⟨?_, ?_, ?_⟩
  · have h := (buscar_valor_xml_typing
      (fun p => if p = "DT_COMPT".toList then some (some (" 01/2024 ".toList))
        else none) ("DT_COMPT".toList)).1 (by decide)
    have := h.1 (" 01/2024 ".toList) (by decide) (by decide)
    rw [this]
    decide
  · have h := (buscar_valor_xml_typing (fun _ => none)
      ("VL_CARTEIRA".toList)).2 (by decide)
    exact h.2.1 rfl (by decide)
  · have h := (buscar_valor_xml_typing (fun _ => some (some []))
      ("VL_CARTEIRA".toList)).2 (by decide)
    exact h.2.2.2.2.2.1 rfl (by decide)

/-! ## Fund identifier handling (`clean_cnpj`, parse line 90) -/

/-- Python `str.zfill(n)` restricted to its use here: left-pad with `'0'`
up to length `n` (the sign-aware case never arises on digit strings). -/
def zfill (n : ℕ) (s : Str) : Str := List.replicate (n - s.length) '0' ++ s

/-- `clean_cnpj` (data_cleaner.py lines 16-40): drop non-digits, truncate to
the first 14, left-pad with zeros to 14.  Python's per-character
`str.isdigit` agrees with `Char.isDigit` on the ASCII inputs concerned. -/
def clean_cnpj (s : Str) : Str := zfill 14 ((s.filter Char.isDigit).take 14)

/-- The path `'NR_CNPJ_FUNDO'`. -/
def nrCnpjFundo : Str := "NR_CNPJ_FUNDO".toList

/-- The identifier assignment of `FIDCXMLParser.parse` (xml_parser.py line
90): `dados.cnpj_fundo = str(buscar_valor_xml(root, 'NR_CNPJ_FUNDO')) or
cnpj_fallback`.  The path contains `NR_`, so the lookup always returns a
string and `str(...)` is the identity; the `vnum` branch is unreachable
(Python `str` of a float is not modelled). -/
def parse_cnpj_fundo (find : Str → Option (Option Str))
    (cnpj_fallback : Str) : Str :=
  let v := match buscar_valor_xml find nrCnpjFundo with
    | .vstr s => s
    | .vnum _ => []
  if v = [] then cnpj_fallback else v

/-- Counterexample for C9: the pipeline never applies `clean_cnpj`; `parse`
stores the raw trimmed filing text, so a filing carrying a formatted
identifier produces a row whose fund identifier is not 14 numeric digits. -/
theorem cnpj_invariant_counterexample :
    parse_cnpj_fundo
      (fun p => if p = nrCnpjFundo
        then some (some ("51.199.121/0001-45".toList)) else none)
      [] = "51.199.121/0001-45".toList
    ∧ ¬(("51.199.121/0001-45".toList).length = 14
        ∧ allDigits ("51.199.121/0001-45".toList) = true) := by
  refine ⟨rfl, by decide⟩

/-- C9 amended: the normalization function `clean_cnpj` does return exactly
14 numeric digits for every input (non-digits removed, truncated to 14,
left-padded with zeros), but the parser does not apply it: the snapshot's
fund identifier is the trimmed extracted text verbatim (or the fallback),
so output rows carry 14-digit identifiers only when the filing text or the
fallback already is one. -/
theorem clean_cnpj_normalizes_and_parse_is_raw :
    (∀ s : Str, (clean_cnpj s).length = 14
      ∧ allDigits (clean_cnpj s) = true)
    ∧ (∀ t fb : Str, strip t ≠ [] →
        parse_cnpj_fundo
          (fun p => if p = nrCnpjFundo then some (some t) else none) fb
          = strip t) := by
  constructor
  · intro s
    constructor
    · have hle : ((s.filter Char.isDigit).take 14).length ≤ 14 := by
        simp
      simp only [clean_cnpj, zfill, List.length_append, List.length_replicate]
      omega
    · apply List.all_eq_true.mpr
      intro c hc
      rcases List.mem_append.mp hc with hc | hc
      · have : c = '0' := List.eq_of_mem_replicate hc
        subst this; decide
      · exact List.of_mem_filter (List.mem_of_mem_take hc)
  · intro t fb hst
    have htne : t ≠ [] := by
      intro h; subst h; exact hst rfl
    have htex : isTextualPath nrCnpjFundo = true := by decide
    have hb : buscar_valor_xml
        (fun p => if p = nrCnpjFundo then some (some t) else none) nrCnpjFundo
        = .vstr (strip t) := by
      simp [buscar_valor_xml, htne, htex]
    simp [parse_cnpj_fundo, hb, hst]

/-- Witness for C9's amended statement at concrete inputs. -/
theorem clean_cnpj_normalizes_witness :
    (clean_cnpj ("51.199.121/0001-45".toList)).length = 14
    ∧ parse_cnpj_fundo
        (fun p => if p = nrCnpjFundo
          then some (some (" 123 ".toList)) else none) ("fb".toList)
        = "123".toList := by
  constructor
  · exact (clean_cnpj_normalizes_and_parse_is_raw.1
      ("51.199.121/0001-45".toList)).1
  · have h := clean_cnpj_normalizes_and_parse_is_raw.2
      (" 123 ".toList) ("fb".toList) (by decide)
    rw [h]
    decide

/-- C10: if the `NR_CNPJ_FUNDO` element is absent, has `None` text, or its
extracted (trimmed) text is empty, `parse` uses the caller-supplied fallback
identifier unchanged; when the extracted text is non-empty the fallback is
ignored and the extracted text is used. -/
theorem parse_cnpj_fallback_spec (find : Str → Option (Option Str))
    (fb : Str) :
    (find nrCnpjFundo = none → parse_cnpj_fundo find fb = fb)
    ∧ (find nrCnpjFundo = some none → parse_cnpj_fundo find fb = fb)
    ∧ (∀ t, find nrCnpjFundo = some (some t) → strip t = [] →
        parse_cnpj_fundo find fb = fb)
    ∧ (∀ t, find nrCnpjFundo = some (some t) → strip t ≠ [] →
        parse_cnpj_fundo find fb = strip t) := by
  have htex : isTextualPath nrCnpjFundo = true := by decide
  refine ⟨?_, ?_, ?_, ?_⟩
  · intro hf
    simp [parse_cnpj_fundo, buscar_valor_xml, hf, buscar_default, htex]
  · intro hf
    simp [parse_cnpj_fundo, buscar_valor_xml, hf, buscar_default, htex]
  · intro t hf hst
    by_cases ht : t = []
    · subst ht
      simp [parse_cnpj_fundo, buscar_valor_xml, hf, buscar_default, htex]
    · simp [parse_cnpj_fundo, buscar_valor_xml, hf, ht, htex, hst]
  · intro t hf hst
    have ht : t ≠ [] := by
      intro h; subst h; exact hst rfl
    simp [parse_cnpj_fundo, buscar_valor_xml, hf, ht, htex, hst]

/-- Witness for C10: absent element falls back; present text wins. -/
theorem parse_cnpj_fallback_witness :
    parse_cnpj_fundo (fun _ => none) ("11222333000181".toList)
      = "11222333000181".toList
    ∧ parse_cnpj_fundo
        (fun p => if p = nrCnpjFundo
          then some (some ("9".toList)) else none) ("11222333000181".toList)
        = "9".toList := by
  constructor
  · exact (parse_cnpj_fallback_spec (fun _ => none)
      ("11222333000181".toList)).1 rfl
  · have h := (parse_cnpj_fallback_spec
      (fun p => if p = nrCnpjFundo then some (some ("9".toList)) else none)
      ("11222333000181".toList)).2.2.2 ("9".toList) (by decide) (by decide)
    rw [h]
    decide

/-! ## Indicator derivation (`FIDCXMLParser.parse`, lines 222-258) -/

/-- The raw monetary fields feeding the indicator block.  They are the
output of `buscar_valor_xml` on slash/`VL_` paths, hence always floats. -/
structure RawFields where
  cred_inadimplencia : ℚ
  dicred_inadimplencia : ℚ
  creditos_adquiridos : ℚ
  ativo_total : ℚ
  disponibilidades : ℚ

/-- The derived indicator fields written by `parse`. -/
structure Indicators where
  inadimplencia_total : ℚ
  carteira_bruta : ℚ
  indice_npl_decimal : ℚ
  indice_npl_percentual : ℚ
  taxa_liquidez_percentual : ℚ
  taxa_liquidez_decimal : ℚ
  concentracao_credito_percentual : ℚ
  concentracao_credito_decimal : ℚ

/-- Python `x or 0` applied to a float: `0.0` is falsy.  Value-wise the
identity. -/
def orZero (x : ℚ) : ℚ := if x = 0 then 0 else x

/-- The indicator block of `parse` (xml_parser.py lines 222-258),
transcribed statement by statement. -/
def computeIndicators (r : RawFields) : Indicators :=
  let inadimpl_cred := orZero r.cred_inadimplencia
  let inadimpl_dicred := orZero r.dicred_inadimplencia
  let inadimplencia_total := max inadimpl_cred inadimpl_dicred
  let carteira_credito := orZero r.creditos_adquiridos
  let npl :=
    if carteira_credito > 0 ∧ inadimplencia_total > 0 then
      let npl_percent := inadimplencia_total / carteira_credito * 100
      (min (npl_percent / 100) 1, npl_percent)
    else ((0 : ℚ), (0 : ℚ))
  let ativo_total := orZero r.ativo_total
  let disponibilidades := orZero r.disponibilidades
  let liq :=
    if ativo_total > 0 then
      let p := disponibilidades / ativo_total * 100
      (p, p / 100)
    else ((0 : ℚ), (0 : ℚ))
  let conc :=
    if ativo_total > 0 then
      let p := carteira_credito / ativo_total * 100
      (p, p / 100)
    else ((0 : ℚ), (0 : ℚ))
  { inadimplencia_total := inadimplencia_total
    carteira_bruta := carteira_credito
    indice_npl_decimal := npl.1
    indice_npl_percentual := npl.2
    taxa_liquidez_percentual := liq.1
    taxa_liquidez_decimal := liq.2
    concentracao_credito_percentual := conc.1
    concentracao_credito_decimal := conc.2 }

lemma orZero_eq (x : ℚ) : orZero x = x := by
  unfold orZero
  split_ifs with h
  · exact h.symm
  · rfl

lemma npl_fields (r : RawFields) :
    (computeIndicators r).inadimplencia_total
        = max r.cred_inadimplencia r.dicred_inadimplencia
    ∧ ((computeIndicators r).indice_npl_percentual,
        (computeIndicators r).indice_npl_decimal)
        = if r.creditos_adquiridos > 0
            ∧ max r.cred_inadimplencia r.dicred_inadimplencia > 0
          then (max r.cred_inadimplencia r.dicred_inadimplencia
                  / r.creditos_adquiridos * 100,
                min (max r.cred_inadimplencia r.dicred_inadimplencia
                  / r.creditos_adquiridos * 100 / 100) 1)
          else (0, 0) := by
  constructor
  · simp [computeIndicators, orZero_eq]
  · simp only [computeIndicators, orZero_eq]
    split_ifs with h
    · rfl
    · rfl

lemma npl_pct_eq (r : RawFields) :
    (computeIndicators r).indice_npl_percentual
      = if r.creditos_adquiridos > 0
          ∧ max r.cred_inadimplencia r.dicred_inadimplencia > 0
        then max r.cred_inadimplencia r.dicred_inadimplencia
              / r.creditos_adquiridos * 100
        else 0 := by
  have h2 := (npl_fields r).2
  by_cases hc : r.creditos_adquiridos > 0
      ∧ max r.cred_inadimplencia r.dicred_inadimplencia > 0
  · rw [if_pos hc] at h2 ⊢
    exact congrArg Prod.fst h2
  · rw [if_neg hc] at h2 ⊢
    exact congrArg Prod.fst h2

lemma npl_dec_eq (r : RawFields) :
    (computeIndicators r).indice_npl_decimal
      = if r.creditos_adquiridos > 0
          ∧ max r.cred_inadimplencia r.dicred_inadimplencia > 0
        then min (max r.cred_inadimplencia r.dicred_inadimplencia
              / r.creditos_adquiridos * 100 / 100) 1
        else 0 := by
  have h2 := (npl_fields r).2
  by_cases hc : r.creditos_adquiridos > 0
      ∧ max r.cred_inadimplencia r.dicred_inadimplencia > 0
  · rw [if_pos hc] at h2 ⊢
    exact congrArg Prod.snd h2
  · rw [if_neg hc] at h2 ⊢
    exact congrArg Prod.snd h2

/-- C3: the consolidated delinquency equals the maximum of the
credit-existing and DICRED delinquency measurements, never their sum;
`consolidatedDelinquency(50, 30) = 50` and `consolidatedDelinquency(0, 0)
= 0`. -/
theorem consolidated_delinquency_spec :
    (∀ r : RawFields, (computeIndicators r).inadimplencia_total
        = max r.cred_inadimplencia r.dicred_inadimplencia)
    ∧ (∀ c d : ℚ, 0 < c → 0 < d →
        (computeIndicators ⟨c, d, 0, 0, 0⟩).inadimplencia_total ≠ c + d)
    ∧ (computeIndicators ⟨50, 30, 0, 0, 0⟩).inadimplencia_total = 50
    ∧ (computeIndicators ⟨0, 0, 0, 0, 0⟩).inadimplencia_total = 0 := by
  have hmax : ∀ r : RawFields, (computeIndicators r).inadimplencia_total
      = max r.cred_inadimplencia r.dicred_inadimplencia :=
    fun r => (npl_fields r).1
  refine ⟨hmax, ?_, ?_, ?_⟩
  · intro c d hc hd
    rw [hmax]
    exact ne_of_lt (max_lt (lt_add_of_pos_right c hd)
      (lt_add_of_pos_left d hc))
  · rw [hmax]
    exact max_eq_left (by norm_num)
  · rw [hmax]
    exact max_self 0

/-- Witness for C3 at concrete inputs. -/
theorem consolidated_delinquency_witness :
    (computeIndicators ⟨7, 3, 0, 0, 0⟩).inadimplencia_total = 7
    ∧ (computeIndicators ⟨1, 1, 0, 0, 0⟩).inadimplencia_total ≠ 2 := by
  constructor
  · rw [consolidated_delinquency_spec.1 ⟨7, 3, 0, 0, 0⟩]
    exact max_eq_left (by norm_num)
  · have h := consolidated_delinquency_spec.2.1 1 1 one_pos one_pos
    rw [show ((1 : ℚ) + 1) = 2 by norm_num] at h
    exact h

/-- C4: when `acquiredReceivables > 0` and the consolidated delinquency is
positive, the NPL percentage is `delinquency / receivables * 100` and the
NPL decimal is `min(percentage / 100, 1.0)`; otherwise both are `0.0`; the
NPL decimal never exceeds `1.0`. -/
theorem npl_ratio_spec :
    (∀ r : RawFields,
      0 < r.creditos_adquiridos →
      0 < (computeIndicators r).inadimplencia_total →
        (computeIndicators r).indice_npl_percentual
            = (computeIndicators r).inadimplencia_total
              / r.creditos_adquiridos * 100
        ∧ (computeIndicators r).indice_npl_decimal
            = min ((computeIndicators r).indice_npl_percentual / 100) 1)
    ∧ (∀ r : RawFields,
        ¬(0 < r.creditos_adquiridos
          ∧ 0 < (computeIndicators r).inadimplencia_total) →
        (computeIndicators r).indice_npl_percentual = 0
        ∧ (computeIndicators r).indice_npl_decimal = 0)
    ∧ (∀ r : RawFields, (computeIndicators r).indice_npl_decimal ≤ 1) := by
  have hmax : ∀ r : RawFields, (computeIndicators r).inadimplencia_total
      = max r.cred_inadimplencia r.dicred_inadimplencia :=
    fun r => (npl_fields r).1
  refine ⟨?_, ?_, ?_⟩
  · intro r h1 h2
    rw [hmax r] at h2
    have hc : r.creditos_adquiridos > 0
        ∧ max r.cred_inadimplencia r.dicred_inadimplencia > 0 := ⟨h1, h2⟩
    constructor
    · rw [npl_pct_eq r, if_pos hc, hmax r]
    · rw [npl_dec_eq r, if_pos hc, npl_pct_eq r, if_pos hc]
  · intro r hn
    rw [hmax r] at hn
    have hc : ¬(r.creditos_adquiridos > 0
        ∧ max r.cred_inadimplencia r.dicred_inadimplencia > 0) := hn
    exact ⟨by rw [npl_pct_eq r, if_neg hc], by rw [npl_dec_eq r, if_neg hc]⟩
  · intro r
    rw [npl_dec_eq r]
    split_ifs with h
    · exact min_le_right _ 1
    · norm_num

/-- Witness for C4 at the spec's end-to-end example (delinquency 40000,
receivables 800000 → NPL 5% and decimal 0.05). -/
theorem npl_ratio_witness :
    (computeIndicators ⟨40000, 10000, 800000, 0, 0⟩).indice_npl_percentual = 5
    ∧ (computeIndicators
        ⟨40000, 10000, 800000, 0, 0⟩).indice_npl_decimal = 1 / 20 := by
  have hm := (npl_fields ⟨40000, 10000, 800000, 0, 0⟩).1
  have h2 : (0 : ℚ)
      < (computeIndicators ⟨40000, 10000, 800000, 0, 0⟩).inadimplencia_total := by
    rw [hm]
    exact lt_max_of_lt_left (by norm_num)
  have h := npl_ratio_spec.1 ⟨40000, 10000, 800000, 0, 0⟩ (by norm_num) h2
  constructor
  · rw [h.1, hm, max_eq_left (by norm_num)]
    norm_num
  · rw [h.2, h.1, hm, max_eq_left (by norm_num)]
    rw [show ((40000 : ℚ) / 800000 * 100 / 100) = 1 / 20 by norm_num]
    exact min_eq_left (by norm_num)

/-! ## Bulk numeric-column normalization
(`convert_numeric_columns`, data_cleaner.py lines 96-136) -/

/-- A pandas column: either numeric dtype (machine floats, `none` = NaN) or
object dtype holding strings. -/
inductive Column where
  | numeric (vals : List (Option ℚ))
  | obj (cells : List Str)
  deriving DecidableEq

/-- `pd.to_numeric(col, errors='coerce')` on a column that already has a
numeric dtype: the identity on the stored values. -/
def to_numeric_numeric (vs : List (Option ℚ)) : List (Option ℚ) := vs.map id

/-- The regex `^\s*-\s*$`: the cell is one dash surrounded by whitespace. -/
def isDashCell (s : Str) : Bool := strip s == ['-']

/-- `.replace(r'^\s*-\s*$', '0', regex=True)` applied to one cell. -/
def replaceDashCell (s : Str) : Str := if isDashCell s = true then ['0'] else s

/-- `pd.to_numeric(cell, errors='coerce')` on one string cell: parse as a
float, NaN (`none`) on failure. -/
def to_numeric_cell (s : Str) : Option ℚ := pyFloat s

/-- One iteration of the column loop of `convert_numeric_columns` (lines
114-132): a column already of numeric dtype is handed to `to_numeric` and
the string path is skipped (`continue`); an object column is cast to `str`,
optionally has its exact-dash cells replaced by `'0'`, and is parsed
cell-wise with coercion to NaN. -/
def convert_numeric_column (replaceDashFlag : Bool) : Column → Column
  | .numeric vs => .numeric (to_numeric_numeric vs)
  | .obj cells =>
    let cells2 := if replaceDashFlag then cells.map replaceDashCell else cells
    .numeric (cells2.map to_numeric_cell)

/-- A DataFrame as an association list of named columns. -/
abbrev DataFrame := List (Str × Column)

/-- The body of `convert_numeric_columns` for one requested column name:
update the column when present, otherwise warn and leave the frame as is. -/
def convert_one (rd : Bool) (df : DataFrame) (col : Str) : DataFrame :=
  if (df.lookup col).isSome then
    df.map (fun p => if p.1 = col then (p.1, convert_numeric_column rd p.2) else p)
  else df

/-- `convert_numeric_columns(df, columns, replace_dash)` (lines 96-136). -/
def convert_numeric_columns (df : DataFrame) (cols : List Str) (rd : Bool) :
    DataFrame :=
  cols.foldl (convert_one rd) df

lemma lookup_map_update (rd : Bool) (col name : Str) (df : DataFrame)
    {vs : List (Option ℚ)} (h : df.lookup name = some (.numeric vs)) :
    (df.map (fun p =>
        if p.1 = col then (p.1, convert_numeric_column rd p.2) else p)).lookup
      name = some (.numeric vs) := by
  induction df with
  | nil => simp at h
  | cons p rest ih =>
    obtain ⟨k, c⟩ := p
    rw [List.map_cons]
    have hhead : (if ((k, c) : Str × Column).1 = col
        then (((k, c) : Str × Column).1,
          convert_numeric_column rd ((k, c) : Str × Column).2)
        else ((k, c) : Str × Column))
        = (k, if k = col then convert_numeric_column rd c else c) := by
      by_cases hcol : k = col <;> simp [hcol]
    rw [hhead, List.lookup_cons]
    rw [List.lookup_cons] at h
    cases hk : name == k with
    | true =>
      rw [hk] at h
      have hc : c = Column.numeric vs := Option.some.inj h
      subst hc
      show some (if k = col
          then convert_numeric_column rd (Column.numeric vs)
          else Column.numeric vs) = some (Column.numeric vs)
      by_cases hcol : k = col
      · rw [if_pos hcol]
        simp [convert_numeric_column, to_numeric_numeric]
      · rw [if_neg hcol]
    | false =>
      rw [hk] at h
      exact ih h

lemma lookup_convert_one (rd : Bool) (df : DataFrame) (col name : Str)
    {vs : List (Option ℚ)} (h : df.lookup name = some (.numeric vs)) :
    (convert_one rd df col).lookup name = some (.numeric vs) := by
  unfold convert_one
  split_ifs with hc
  · exact lookup_map_update rd col name df h
  · exact h

/-- C2: a column whose values are already machine floats passes through the
bulk numeric-column normalization unchanged — for every requested column
list the numeric-typed column keeps exactly its values (so scientific
notation survives), and the text-based dash/locale path applies only to
object columns. -/
theorem numeric_column_passthrough :
    (∀ (df : DataFrame) (cols : List Str) (rd : Bool) (name : Str)
        (vs : List (Option ℚ)),
      df.lookup name = some (.numeric vs) →
      (convert_numeric_columns df cols rd).lookup name
        = some (.numeric vs))
    ∧ (∀ (rd : Bool) (vs : List (Option ℚ)),
        convert_numeric_column rd (.numeric vs) = .numeric vs)
    ∧ convert_numeric_column true (.numeric [some (315 / 10 ^ 12)])
        = .numeric [some (315 / 10 ^ 12)] := by
  refine ⟨?_, ?_, ?_⟩
  · intro df cols rd name vs h
    induction cols generalizing df with
    | nil => exact h
    | cons c cs ih =>
      exact ih (convert_one rd df c) (lookup_convert_one rd df c name h)
  · intro rd vs
    simp [convert_numeric_column, to_numeric_numeric]
  · simp [convert_numeric_column, to_numeric_numeric]

/-- Witness for C2: the historical-defect value `3.15e-10` stored in a
numeric column survives normalization over that column. -/
theorem numeric_column_passthrough_witness :
    (convert_numeric_columns
        [("A".toList, Column.numeric [some (315 / 10 ^ 12)])] ["A".toList]
        true).lookup ("A".toList)
      = some (Column.numeric [some (315 / 10 ^ 12)]) := by
  apply numeric_column_passthrough.1
  rw [List.lookup_cons]
  have : ("A".toList == "A".toList) = true := by decide
  rw [this]

/-! ## Diff generator (`DiffGenerator.generate_diff_report`,
diff_generator.py lines 37-92) -/

/-- A dataset version keyed by fund identifier: which identifiers are
present, which field names are numeric-typed in this version, and the value
of each (identifier, field) cell (`none` models NaN / missing). -/
structure Table where
  cnpjs : List Str
  numericCols : List Str
  val : Str → Str → Option ℚ

/-- One emitted difference record (`CNPJ_FUNDO`, `COLUNA`, `DIFERENCA`). -/
structure DiffRec where
  cnpj : Str
  coluna : Str
  diferenca : ℚ
  deriving DecidableEq

/-- The NaN-aware delta (lines 73-81): skip when both values are missing,
`v2` when only `v1` is missing, `-v1` when only `v2` is missing, else
`v2 - v1`. -/
def deltaCell : Option ℚ → Option ℚ → Option ℚ
  | none, none => none
  | none, some v2 => some v2
  | some v1, none => some (-v1)
  | some v1, some v2 => some (v2 - v1)

/-- The record built for one (identifier, field) pair: emitted only when the
delta exists and is non-zero (lines 83-89). -/
def mkDiffRec (c f : Str) : Option ℚ → Option DiffRec
  | none => none
  | some d => if d ≠ 0 then some ⟨c, f, d⟩ else none

/-- `generate_diff_report` (lines 37-92): restrict to identifiers present in
both versions and to field names numeric in both, then collect the non-zero
NaN-aware deltas. -/
def generate_diff_report (t1 t2 : Table) : List DiffRec :=
  let common := t1.cnpjs.filter (fun c => t2.cnpjs.contains c)
  let cols := t1.numericCols.filter (fun f => t2.numericCols.contains f)
  (common.map (fun c =>
    cols.filterMap (fun f =>
      mkDiffRec c f (deltaCell (t1.val c f) (t2.val c f))))).flatten

lemma containsStr_iff {l : List Str} {s : Str} :
    l.contains s = true ↔ s ∈ l := by
  simp [List.contains, List.elem_iff]

/-- C8: a record `⟨c, f, d⟩` is in the diff report exactly when `c` is an
identifier present in both tables, `f` a field numeric-typed in both, and
`d` the NaN-aware delta of the two cell values with `d ≠ 0` (both-missing
pairs and zero deltas are omitted); plus the four concrete examples of the
spec. -/
theorem diff_report_spec :
    (∀ (t1 t2 : Table) (c f : Str) (d : ℚ),
      (⟨c, f, d⟩ : DiffRec) ∈ generate_diff_report t1 t2
        ↔ (c ∈ t1.cnpjs ∧ c ∈ t2.cnpjs)
          ∧ (f ∈ t1.numericCols ∧ f ∈ t2.numericCols)
          ∧ deltaCell (t1.val c f) (t2.val c f) = some d ∧ d ≠ 0)
    ∧ generate_diff_report
        ⟨[['X']], [['A']], fun _ _ => some 10⟩
        ⟨[['X']], [['A']], fun _ _ => some 12⟩ = [⟨['X'], ['A'], 2⟩]
    ∧ generate_diff_report
        ⟨[['X']], [['A']], fun _ _ => some 10⟩
        ⟨[['X']], [['A']], fun _ _ => none⟩ = [⟨['X'], ['A'], -10⟩]
    ∧ generate_diff_report
        ⟨[['X']], [['A']], fun _ _ => none⟩
        ⟨[['X']], [['A']], fun _ _ => some 5⟩ = [⟨['X'], ['A'], 5⟩]
    ∧ generate_diff_report
        ⟨[['X']], [['A']], fun _ _ => none⟩
        ⟨[['X']], [['A']], fun _ _ => none⟩ = [] := by
  refine ⟨?_, ?_, ?_, ?_, ?_⟩
  · intro t1 t2 c f d
    constructor
    · intro hmem
      simp only [generate_diff_report, List.mem_flatten, List.mem_map] at hmem
      obtain ⟨l, ⟨c', hc', rfl⟩, hrl⟩ := hmem
      rw [List.mem_filterMap] at hrl
      obtain ⟨f', hf', heq⟩ := hrl
      rw [List.mem_filter] at hc' hf'
      cases ho : deltaCell (t1.val c' f') (t2.val c' f') with
      | none =>
        rw [ho] at heq
        exact absurd heq (by simp [mkDiffRec])
      | some d' =>
        rw [ho] at heq
        by_cases hd : d' ≠ 0
        · rw [show mkDiffRec c' f' (some d')
              = if d' ≠ 0 then some ⟨c', f', d'⟩ else none from rfl,
            if_pos hd, Option.some.injEq] at heq
          obtain ⟨rfl, rfl, rfl⟩ := DiffRec.mk.injEq _ _ _ _ _ _ ▸ heq
          exact ⟨⟨hc'.1, containsStr_iff.mp hc'.2⟩,
            ⟨hf'.1, containsStr_iff.mp hf'.2⟩, ho, hd⟩
        · rw [show mkDiffRec c' f' (some d')
              = if d' ≠ 0 then some ⟨c', f', d'⟩ else none from rfl,
            if_neg hd] at heq
          exact absurd heq (by simp)
    · rintro ⟨⟨hc1, hc2⟩, ⟨hf1, hf2⟩, hdelta, hd⟩
      simp only [generate_diff_report, List.mem_flatten, List.mem_map]
      refine ⟨(t1.numericCols.filter
          (fun f => t2.numericCols.contains f)).filterMap
          (fun f' => mkDiffRec c f' (deltaCell (t1.val c f') (t2.val c f'))),
        ⟨c, List.mem_filter.mpr ⟨hc1, containsStr_iff.mpr hc2⟩, rfl⟩, ?_⟩
      rw [List.mem_filterMap]
      refine ⟨f, List.mem_filter.mpr ⟨hf1, containsStr_iff.mpr hf2⟩, ?_⟩
      rw [hdelta]
      rw [show mkDiffRec c f (some d)
          = if d ≠ 0 then some ⟨c, f, d⟩ else none from rfl, if_pos hd]
  · norm_num [generate_diff_report, deltaCell, mkDiffRec, List.filter,
      List.filterMap]
  · norm_num [generate_diff_report, deltaCell, mkDiffRec, List.filter,
      List.filterMap]
  · norm_num [generate_diff_report, deltaCell, mkDiffRec, List.filter,
      List.filterMap]
  · norm_num [generate_diff_report, deltaCell, mkDiffRec, List.filter,
      List.filterMap]

/-! ## Transport retry policy (`B3ApiClient._create_retry_session`,
api_client.py lines 46-67) -/

/-- The outcome of one HTTP attempt as seen by the retry adapter. -/
inductive Outcome where
  | connFail
  | readTimeout
  | resp (status : ℕ)
  deriving DecidableEq

/-- `status_forcelist=(429, 500, 502, 503, 504)`. -/
def status_forcelist : List ℕ := [429, 500, 502, 503, 504]

/-- The adapter retries on connection failures, read timeouts, and responses
whose status is in the forcelist. -/
def retryableOutcome : Outcome → Bool
  | .connFail => true
  | .readTimeout => true
  | .resp s => status_forcelist.contains s

/-- Result of one session call: a delivered response (any status — the
caller's `raise_for_status` then decides), or `MaxRetryError` once the
configured retries are exhausted.  Both record the attempts made. -/
inductive SessionResult where
  | response (status : ℕ) (attempts : ℕ)
  | maxRetryError (attempts : ℕ)
  deriving DecidableEq

/-- urllib3 `Retry` semantics for `Retry(total=3, read=3, connect=3,
backoff_factor=1, status_forcelist=(429,500,502,503,504))` as configured in
`_create_retry_session`: `remaining` is the number of retries still allowed
(`total` counts retries, not attempts), `i` the attempts already made.
Each retryable outcome consumes one retry; a retryable outcome with no
retries remaining raises `MaxRetryError`; a response outside the forcelist
is delivered immediately.  Backoff sleep times are not modelled. -/
def runRetry (transport : ℕ → Outcome) : ℕ → ℕ → SessionResult
  | 0, i =>
    match transport i with
    | .resp s =>
      if status_forcelist.contains s then .maxRetryError (i + 1)
      else .response s (i + 1)
    | _ => .maxRetryError (i + 1)
  | r + 1, i =>
    match transport i with
    | .resp s =>
      if status_forcelist.contains s then runRetry transport r (i + 1)
      else .response s (i + 1)
    | _ => runRetry transport r (i + 1)

/-- One `session.get` under the adapter configured with `retries=3`:
`transport i` is the outcome the network would produce for attempt `i`. -/
def sessionGet (transport : ℕ → Outcome) : SessionResult :=
  runRetry transport 3 0

/-- Number of attempts actually performed. -/
def attemptsOf : SessionResult → ℕ
  | .response _ n => n
  | .maxRetryError n => n

lemma runRetry_deliver {t : ℕ → Outcome} {i s : ℕ}
    (ht : t i = .resp s) (hs : status_forcelist.contains s = false) :
    ∀ r, runRetry t r i = .response s (i + 1) := by
  intro r
  have hs2 : s ∉ status_forcelist := by simpa using hs
  cases r with
  | zero => simp [runRetry, ht, hs2]
  | succ r => simp [runRetry, ht, hs2]

lemma runRetry_step {t : ℕ → Outcome} {i : ℕ}
    (h : retryableOutcome (t i) = true) (r : ℕ) :
    runRetry t (r + 1) i = runRetry t r (i + 1) := by
  cases ht : t i with
  | connFail => simp [runRetry, ht]
  | readTimeout => simp [runRetry, ht]
  | resp s =>
    have hs : s ∈ status_forcelist := by
      rw [ht] at h
      simpa [retryableOutcome] using h
    simp [runRetry, ht, hs]

lemma runRetry_exhaust {t : ℕ → Outcome} {i : ℕ}
    (h : retryableOutcome (t i) = true) :
    runRetry t 0 i = .maxRetryError (i + 1) := by
  cases ht : t i with
  | connFail => simp [runRetry, ht]
  | readTimeout => simp [runRetry, ht]
  | resp s =>
    have hs : s ∈ status_forcelist := by
      rw [ht] at h
      simpa [retryableOutcome] using h
    simp [runRetry, ht, hs]

lemma attemptsOf_runRetry (t : ℕ → Outcome) :
    ∀ r i, attemptsOf (runRetry t r i) ≤ i + r + 1 := by
  intro r
  induction r with
  | zero =>
    intro i
    cases ht : t i with
    | connFail => simp [runRetry, ht, attemptsOf]
    | readTimeout => simp [runRetry, ht, attemptsOf]
    | resp s =>
      by_cases hs : s ∈ status_forcelist
      · simp [runRetry, ht, hs, attemptsOf]
      · simp [runRetry, ht, hs, attemptsOf]
  | succ r ih =>
    intro i
    cases ht : t i with
    | connFail =>
      calc attemptsOf (runRetry t (r + 1) i)
          = attemptsOf (runRetry t r (i + 1)) := by
            rw [runRetry_step (by rw [ht]; rfl) r]
        _ ≤ (i + 1) + r + 1 := ih (i + 1)
        _ = i + (r + 1) + 1 := by omega
    | readTimeout =>
      calc attemptsOf (runRetry t (r + 1) i)
          = attemptsOf (runRetry t r (i + 1)) := by
            rw [runRetry_step (by rw [ht]; rfl) r]
        _ ≤ (i + 1) + r + 1 := ih (i + 1)
        _ = i + (r + 1) + 1 := by omega
    | resp s =>
      by_cases hs : status_forcelist.contains s = true
      · calc attemptsOf (runRetry t (r + 1) i)
            = attemptsOf (runRetry t r (i + 1)) := by
              rw [runRetry_step (by rw [ht]; exact hs) r]
          _ ≤ (i + 1) + r + 1 := ih (i + 1)
          _ = i + (r + 1) + 1 := by omega
      · simp only [Bool.not_eq_true] at hs
        rw [runRetry_deliver ht hs (r + 1)]
        simp only [attemptsOf]
        omega

/-- Counterexample for C6: `Retry(total=3)` allows 3 retries after the
initial attempt, i.e. up to 4 attempts.  A transport answering HTTP 503 on
the first three attempts and 200 on the fourth yields a delivered 200
response after 4 attempts — a success, not the terminal download error the
claim states, and more than the claimed ceiling of 3 attempts. -/
theorem retry_policy_counterexample :
    sessionGet (fun i => if i < 3 then .resp 503 else .resp 200)
      = .response 200 4
    ∧ ¬(attemptsOf (sessionGet
        (fun i => if i < 3 then .resp 503 else .resp 200)) ≤ 3) := by
  refine ⟨rfl, by decide⟩

/-- C6 amended: the configured adapter makes at most 4 attempts in total
(1 initial + 3 retries), with exponential backoff, retrying only on
connection failures, timeouts and HTTP 429/500/502/503/504; any other
response is delivered immediately without retry (so every other HTTP error
fails immediately in the caller); four consecutive retryable outcomes give
a terminal `MaxRetryError`, and a transport returning 503 three times then
succeeding succeeds on the 4th attempt. -/
theorem retry_policy_spec :
    (∀ transport : ℕ → Outcome, attemptsOf (sessionGet transport) ≤ 4)
    ∧ (∀ (transport : ℕ → Outcome) (k s : ℕ),
        k ≤ 3 → (∀ j, j < k → retryableOutcome (transport j) = true) →
        transport k = .resp s → status_forcelist.contains s = false →
        sessionGet transport = .response s (k + 1))
    ∧ (∀ transport : ℕ → Outcome,
        (∀ j, j ≤ 3 → retryableOutcome (transport j) = true) →
        sessionGet transport = .maxRetryError 4) := by
  refine ⟨?_, ?_, ?_⟩
  · intro t
    have h := attemptsOf_runRetry t 3 0
    simpa [sessionGet] using h
  · intro t k s hk hpre htk hs
    unfold sessionGet
    interval_cases k
    · rw [runRetry_deliver htk hs 3]
    · rw [runRetry_step (hpre 0 (by omega)) 2, runRetry_deliver htk hs 2]
    · rw [runRetry_step (hpre 0 (by omega)) 2,
        runRetry_step (hpre 1 (by omega)) 1, runRetry_deliver htk hs 1]
    · rw [runRetry_step (hpre 0 (by omega)) 2,
        runRetry_step (hpre 1 (by omega)) 1,
        runRetry_step (hpre 2 (by omega)) 0, runRetry_deliver htk hs 0]
  · intro t hall
    unfold sessionGet
    rw [runRetry_step (hall 0 (by omega)) 2,
      runRetry_step (hall 1 (by omega)) 1,
      runRetry_step (hall 2 (by omega)) 0,
      runRetry_exhaust (hall 3 (by omega))]

/-- Witness for C6's amended statement: an immediate 404 is delivered on
the first attempt; an all-503 transport exhausts after 4 attempts. -/
theorem retry_policy_witness :
    attemptsOf (sessionGet (fun _ => .resp 404)) ≤ 4
    ∧ sessionGet (fun _ => .resp 404) = .response 404 1
    ∧ sessionGet (fun _ => .resp 503) = .maxRetryError 4 := by
  refine ⟨retry_policy_spec.1 _, ?_, ?_⟩
  · exact retry_policy_spec.2.1 (fun _ => .resp 404) 0 404 (by omega)
      (fun j hj => absurd hj (by omega)) rfl (by decide)
  · exact retry_policy_spec.2.2 (fun _ => .resp 503)
      (fun j hj => show retryableOutcome (Outcome.resp 503) = true by decide)

/-! ## Orchestrator (`FIDCETLService`, etl_service.py lines 35-94) -/

/-- What one pipeline step produced, as `process_single_cnpj` sees it:
the step returned `(True, data, None)`, returned `(False, None, erro)`, or
raised an exception (caught by the method's catch-all handler). -/
inductive StepOut (α : Type) where
  | ok (a : α)
  | fail (msg : Str)
  | exn (msg : Str)

/-- The parsed filing as used by the service: `FIDCData` with
`status = "SUCESSO"` set by the parser; only the identifier matters to the
claims. -/
structure Snapshot where
  cnpj_fundo : Str
  deriving DecidableEq

/-- The collaborators called by `process_single_cnpj`, abstracted over the
intermediate data (documents table, selected document, XML bytes). -/
structure Api (Docs Doc Xml : Type) where
  buscar_documentos : Str → StepOut Docs
  filtrar_informe_mensal : Docs → StepOut Docs
  selecionar_documento_mais_recente : Docs → StepOut Doc
  docId : Doc → Str
  baixar_xml : Str → StepOut Xml
  parseXml : Xml → Str → StepOut Snapshot

/-- One row of the output table (the fields the claims concern). -/
structure EtlRow where
  cnpj_fundo : Str
  status : Str
  mensagem_erro : Option Str
  deriving DecidableEq

def st_SUCESSO : Str := "SUCESSO".toList
def st_ERRO_BUSCA : Str := "ERRO_BUSCA".toList
def st_SEM_INFORME_MENSAL : Str := "SEM_INFORME_MENSAL".toList
def st_ERRO_SELECAO : Str := "ERRO_SELECAO".toList
def st_ERRO_DOWNLOAD : Str := "ERRO_DOWNLOAD".toList
def st_ERRO_PARSE : Str := "ERRO_PARSE".toList
def st_ERRO_INESPERADO : Str := "ERRO_INESPERADO".toList

/-- `process_single_cnpj` (etl_service.py lines 35-72): run the five steps
in order, mapping the first returned failure to its step status and any
raised exception to `ERRO_INESPERADO`; on success the row carries the
parsed snapshot's own identifier and `SUCESSO`. -/
def process_single_cnpj {D K X : Type} (api : Api D K X) (cnpj : Str) :
    EtlRow :=
  match api.buscar_documentos cnpj with
  | .exn m => ⟨cnpj, st_ERRO_INESPERADO, some m⟩
  | .fail m => ⟨cnpj, st_ERRO_BUSCA, some m⟩
  | .ok df_docs =>
    match api.filtrar_informe_mensal df_docs with
    | .exn m => ⟨cnpj, st_ERRO_INESPERADO, some m⟩
    | .fail m => ⟨cnpj, st_SEM_INFORME_MENSAL, some m⟩
    | .ok df_mensal =>
      match api.selecionar_documento_mais_recente df_mensal with
      | .exn m => ⟨cnpj, st_ERRO_INESPERADO, some m⟩
      | .fail m => ⟨cnpj, st_ERRO_SELECAO, some m⟩
      | .ok doc =>
        match api.baixar_xml (api.docId doc) with
        | .exn m => ⟨cnpj, st_ERRO_INESPERADO, some m⟩
        | .fail m => ⟨cnpj, st_ERRO_DOWNLOAD, some m⟩
        | .ok xml =>
          match api.parseXml xml cnpj with
          | .exn m => ⟨cnpj, st_ERRO_INESPERADO, some m⟩
          | .fail m => ⟨cnpj, st_ERRO_PARSE, some m⟩
          | .ok fidc => ⟨fidc.cnpj_fundo, st_SUCESSO, none⟩

/-- `process_batch` (lines 74-94): process each identifier sequentially and
collect the rows; the inter-request sleep does not affect the rows. -/
def process_batch {D K X : Type} (api : Api D K X) (cnpjs : List Str) :
    List EtlRow :=
  cnpjs.map (process_single_cnpj api)

/-- C7: for every batch the orchestrator yields exactly one row per input
identifier in input order; a returned failure of any of the five steps maps
to that step's status with the step's message, a raised exception maps to
`ERRO_INESPERADO`, and processing is total (no identifier can abort the
batch). -/
theorem batch_fail_soft_spec {D K X : Type} (api : Api D K X)
    (cnpjs : List Str) :
    (process_batch api cnpjs).length = cnpjs.length
    ∧ (∀ i (h : i < cnpjs.length),
        (process_batch api cnpjs)[i]?
          = some (process_single_cnpj api (cnpjs.get ⟨i, h⟩)))
    ∧ (∀ cnpj m, api.buscar_documentos cnpj = .fail m →
        process_single_cnpj api cnpj = ⟨cnpj, st_ERRO_BUSCA, some m⟩)
    ∧ (∀ cnpj docs m, api.buscar_documentos cnpj = .ok docs →
        api.filtrar_informe_mensal docs = .fail m →
        process_single_cnpj api cnpj = ⟨cnpj, st_SEM_INFORME_MENSAL, some m⟩)
    ∧ (∀ cnpj docs mensal m, api.buscar_documentos cnpj = .ok docs →
        api.filtrar_informe_mensal docs = .ok mensal →
        api.selecionar_documento_mais_recente mensal = .fail m →
        process_single_cnpj api cnpj = ⟨cnpj, st_ERRO_SELECAO, some m⟩)
    ∧ (∀ cnpj docs mensal doc m, api.buscar_documentos cnpj = .ok docs →
        api.filtrar_informe_mensal docs = .ok mensal →
        api.selecionar_documento_mais_recente mensal = .ok doc →
        api.baixar_xml (api.docId doc) = .fail m →
        process_single_cnpj api cnpj = ⟨cnpj, st_ERRO_DOWNLOAD, some m⟩)
    ∧ (∀ cnpj docs mensal doc xml m, api.buscar_documentos cnpj = .ok docs →
        api.filtrar_informe_mensal docs = .ok mensal →
        api.selecionar_documento_mais_recente mensal = .ok doc →
        api.baixar_xml (api.docId doc) = .ok xml →
        api.parseXml xml cnpj = .fail m →
        process_single_cnpj api cnpj = ⟨cnpj, st_ERRO_PARSE, some m⟩)
    ∧ (∀ cnpj m, api.buscar_documentos cnpj = .exn m →
        process_single_cnpj api cnpj = ⟨cnpj, st_ERRO_INESPERADO, some m⟩)
    ∧ (∀ cnpj docs mensal doc xml m, api.buscar_documentos cnpj = .ok docs →
        api.filtrar_informe_mensal docs = .ok mensal →
        api.selecionar_documento_mais_recente mensal = .ok doc →
        api.baixar_xml (api.docId doc) = .ok xml →
        api.parseXml xml cnpj = .exn m →
        process_single_cnpj api cnpj = ⟨cnpj, st_ERRO_INESPERADO, some m⟩)
    ∧ (∀ cnpj docs mensal doc xml snap,
        api.buscar_documentos cnpj = .ok docs →
        api.filtrar_informe_mensal docs = .ok mensal →
        api.selecionar_documento_mais_recente mensal = .ok doc →
        api.baixar_xml (api.docId doc) = .ok xml →
        api.parseXml xml cnpj = .ok snap →
        process_single_cnpj api cnpj
          = ⟨snap.cnpj_fundo, st_SUCESSO, none⟩) := by
  refine ⟨?_, ?_, ?_, ?_, ?_, ?_, ?_, ?_, ?_, ?_⟩
  · simp [process_batch]
  · intro i hi
    simp [process_batch, List.getElem?_map, List.getElem?_eq_getElem hi]
  · intro cnpj m h1
    simp [process_single_cnpj, h1]
  · intro cnpj docs m h1 h2
    simp [process_single_cnpj, h1, h2]
  · intro cnpj docs mensal m h1 h2 h3
    simp [process_single_cnpj, h1, h2, h3]
  · intro cnpj docs mensal doc m h1 h2 h3 h4
    simp [process_single_cnpj, h1, h2, h3, h4]
  · intro cnpj docs mensal doc xml m h1 h2 h3 h4 h5
    simp [process_single_cnpj, h1, h2, h3, h4, h5]
  · intro cnpj m h1
    simp [process_single_cnpj, h1]
  · intro cnpj docs mensal doc xml m h1 h2 h3 h4 h5
    simp [process_single_cnpj, h1, h2, h3, h4, h5]
  · intro cnpj docs mensal doc xml snap h1 h2 h3 h4 h5
    simp [process_single_cnpj, h1, h2, h3, h4, h5]

/-- A concrete collaborator set exercising the batch theorem. -/
def demoApi : Api Unit Unit Unit :=
  { buscar_documentos := fun c =>
      if c = "bad".toList then .fail ("no docs".toList) else .ok ()
    filtrar_informe_mensal := fun _ => .ok ()
    selecionar_documento_mais_recente := fun _ => .ok ()
    docId := fun _ => []
    baixar_xml := fun _ => .ok ()
    parseXml := fun _ c => .ok ⟨c⟩ }

/-- Witness for C7: a two-identifier batch yields two rows; the failing
identifier maps to `ERRO_BUSCA`, the other to `SUCESSO`. -/
theorem batch_fail_soft_witness :
    (process_batch demoApi ["ok".toList, "bad".toList]).length = 2
    ∧ process_single_cnpj demoApi ("bad".toList)
        = ⟨"bad".toList, st_ERRO_BUSCA, some ("no docs".toList)⟩
    ∧ process_single_cnpj demoApi ("ok".toList)
        = ⟨"ok".toList, st_SUCESSO, none⟩ := by
  refine ⟨?_, ?_, ?_⟩
  · rw [(batch_fail_soft_spec demoApi ["ok".toList, "bad".toList]).1]
    rfl
  · exact (batch_fail_soft_spec demoApi []).2.2.1 ("bad".toList)
      ("no docs".toList) (by simp [demoApi])
  · exact (batch_fail_soft_spec demoApi []).2.2.2.2.2.2.2.2.2
      ("ok".toList) () () () () ⟨"ok".toList⟩ (by simp [demoApi])
      rfl rfl rfl (by simp [demoApi])

end FidcEtl
